import Mathlib

/-!
A shallow embedding of the Finance-Visualizer pipeline
(src/streamlitfin.py): the record normalizer `load_and_clean`
(lines 8-35) and the aggregation the script performs on its output
(lines 46-111).  Dataframe cells are modelled by `CellVal` (NA, text, or a
parsed datetime), a dataframe row by `Row`, amounts by rationals.
-/

namespace FinViz

/-- A calendar date (pandas Timestamp, date part only). -/
structure Date where
  year : Nat
  month : Nat
  day : Nat
deriving DecidableEq

/-- A cell of the dataframe in one of the states the pipeline produces:
missing (NaN/NaT), a text value as read from the CSV, or a parsed datetime
(the state of the Date column after line 13). -/
inductive CellVal where
  | na : CellVal
  | str (s : String) : CellVal
  | dt (d : Date) : CellVal
deriving DecidableEq

/-- One dataframe row restricted to the columns the pipeline touches.
`Direction` stands for the column "Received / paid" and `Location` for
"If shopped, where".  `Amount_numeric` and `Month` are the columns
load_and_clean creates (lines 16-25); on raw input they carry the junk
values 0 and "". -/
structure Row where
  Date : CellVal
  Amount : CellVal
  Category : CellVal
  Direction : CellVal
  Location : CellVal
  Amount_numeric : ℚ
  Month : String
deriving DecidableEq

/-! ## Date parsing and rendering -/

/-- Gregorian leap-year rule. -/
def isLeap (y : Nat) : Bool :=
  y % 4 == 0 && (y % 100 != 0 || y % 400 == 0)

/-- Number of days of month `m` of year `y`. -/
def daysInMonth (y m : Nat) : Nat :=
  if m == 2 then (if isLeap y then 29 else 28)
  else if m == 4 || m == 6 || m == 9 || m == 11 then 30
  else 31

/-- Numeric value of a list of decimal digit characters. -/
def natOfDigits (cs : List Char) : Nat :=
  cs.foldl (fun a c => 10 * a + (c.toNat - 48)) 0

/-- Model of pd.to_datetime(s, errors="coerce") on one string, on the
representative ISO format YYYY-MM-DD (pandas accepts further formats; no
claim depends on which strings are in the parsable set).  A calendar-invalid
date coerces to NaT (none), as does a year outside 1678..2261, the full
years the nanosecond pandas Timestamp can hold. -/
def parseDate (s : String) : Option Date :=
  match s.data with
  | [y1, y2, y3, y4, h1, m1, m2, h2, d1, d2] =>
    if y1.isDigit && y2.isDigit && y3.isDigit && y4.isDigit &&
        h1 == '-' && m1.isDigit && m2.isDigit && h2 == '-' &&
        d1.isDigit && d2.isDigit then
      let y := natOfDigits [y1, y2, y3, y4]
      let m := natOfDigits [m1, m2]
      let d := natOfDigits [d1, d2]
      if 1678 ≤ y && y ≤ 2261 && 1 ≤ m && m ≤ 12 &&
          1 ≤ d && d ≤ daysInMonth y m then
        some ⟨y, m, d⟩
      else none
    else none
  | _ => none

/-- Model of pd.to_datetime with errors="coerce" on one cell (line 13): an
already-parsed datetime is returned unchanged, NA coerces to NaT, a string
is parsed (NaT on failure). -/
def toDatetime : CellVal → Option Date
  | CellVal.na => none
  | CellVal.dt d => some d
  | CellVal.str s => parseDate s

/-- The character of a decimal digit value (`n` taken mod 10). -/
def digitChar (n : Nat) : Char :=
  Char.ofNat (48 + n % 10)

/-- Four-digit rendering of a year.  Every date the pipeline keeps has a
year in 1678..2261 (see parseDate), for which %Y is exactly four digits. -/
def yearChars (y : Nat) : List Char :=
  [digitChar (y / 1000), digitChar (y / 100), digitChar (y / 10), digitChar y]

/-- Two-digit zero-padded rendering (months and days). -/
def pad2 (n : Nat) : List Char :=
  [digitChar (n / 10), digitChar n]

/-- Characters of strftime("%Y-%m") applied to a date. -/
def monthChars (d : Date) : List Char :=
  yearChars d.year ++ '-' :: pad2 d.month

/-- Characters of the ISO date text YYYY-MM-DD. -/
def isoChars (d : Date) : List Char :=
  monthChars d ++ '-' :: pad2 d.day

/-- The ISO text of a date: what str()/astype(str) shows for a pandas
date-only Timestamp. -/
def isoStr (d : Date) : String :=
  String.mk (isoChars d)

/-- Model of dt.strftime("%Y-%m") on one date (line 25): the month key. -/
def monthKey (d : Date) : String :=
  String.mk (monthChars d)

/-! ## Amount parsing (lines 16-22) -/

/-- Model of Series.astype(str) on one cell: NaN prints as "nan", a
datetime as its ISO text. -/
def astypeStr : CellVal → String
  | CellVal.na => "nan"
  | CellVal.str s => s
  | CellVal.dt d => isoStr d

/-- Model of .str.replace("CHF", "", regex=False): delete every
non-overlapping occurrence of "CHF", scanning left to right (line 19). -/
def removeCHF : List Char → List Char
  | 'C' :: 'H' :: 'F' :: rest => removeCHF rest
  | c :: rest => c :: removeCHF rest
  | [] => []

/-- A character the regex replacement of line 20 keeps: a digit, the
decimal point, or the minus sign. -/
def isAmountChar (c : Char) : Bool :=
  c.isDigit || c == '.' || c == '-'

/-- Model of .str.replace of line 20 with pattern [^\d\.-]: keep only
digits, '.' and '-'. -/
def stripNonNumeric (cs : List Char) : List Char :=
  cs.filter isAmountChar

/-- The rational with integer part `ip`, fractional digits `fp`, and sign
`neg`. -/
def ratOfParts (neg : Bool) (ip fp : List Char) : ℚ :=
  let mag : ℚ := (natOfDigits ip : ℚ) + (natOfDigits fp : ℚ) / ((10 : ℚ) ^ fp.length)
  if neg then -mag else mag

/-- Model of pd.to_numeric(s, errors="coerce") on a string over the
characters the preceding strip leaves (digits, '.', '-'): an optional
leading '-', then an integer part with at most one '.', with at least one
digit overall; anything else (a stray '-', a second '.', the empty string)
coerces to NaN, i.e. none.  (The real parser also trims whitespace and
reads exponents, but those characters cannot survive the strip.) -/
def parseDecimal (cs : List Char) : Option ℚ :=
  let neg := match cs with
    | '-' :: _ => true
    | _ => false
  let body := match cs with
    | '-' :: rest => rest
    | _ => cs
  let ip := body.takeWhile Char.isDigit
  let rest := body.dropWhile Char.isDigit
  match rest with
  | [] => if ip.isEmpty then none else some (ratOfParts neg ip [])
  | '.' :: fp =>
    if fp.all Char.isDigit && !(ip.isEmpty && fp.isEmpty) then
      some (ratOfParts neg ip fp)
    else none
  | _ => none

/-- Lines 16-22 on one cell: the numeric amount.  astype(str), delete
"CHF", keep only digits/'.'/'-', coerce to a number, and fill a failed
coercion with 0. -/
def amountNumeric (c : CellVal) : ℚ :=
  (parseDecimal (stripNonNumeric (removeCHF (astypeStr c).data))).getD 0

/-! ## The normalizer rows (lines 13-33) -/

/-- Model of Series.fillna(v) on one cell: only a missing value is
replaced. -/
def fillna (c : CellVal) (v : String) : CellVal :=
  match c with
  | CellVal.na => CellVal.str v
  | c => c

/-- The cleaned row built from raw row `r` whose date parsed to `d`: the
parsed date, the untouched Amount text, the three filled text fields, the
computed numeric amount and the derived month key (lines 13-30). -/
def normRow (r : Row) (d : Date) : Row :=
  ⟨CellVal.dt d, r.Amount,
    fillna r.Category "Uncategorized",
    fillna r.Direction "Unknown",
    fillna r.Location "",
    amountNumeric r.Amount,
    monthKey d⟩

/-- Lines 13-33 of load_and_clean on one row: parse the date, compute
Amount_numeric and Month, fill the three text defaults, and drop the row
(none) exactly when the date coerced to NaT (the dropna of line 33). -/
def cleanRow (r : Row) : Option Row :=
  match toDatetime r.Date with
  | none => none
  | some d => some (normRow r d)

/-- load_and_clean's transformation of the row set (lines 13-33): each row
is cleaned, rows whose date fails to parse are dropped. -/
def load_and_clean (rows : List Row) : List Row :=
  rows.filterMap cleanRow

/-! ## The schema level (column accesses of load_and_clean) -/

/-- A dataframe: its column names plus its rows (the rows already
restricted to the columns the pipeline touches). -/
structure DFrame where
  cols : List String
  rows : List Row

/-- Line 10: drop every column whose name starts with "Unnamed"
(errors="ignore": never a failure). -/
def dropUnnamed (cols : List String) : List String :=
  cols.filter (fun c => !(List.isPrefixOf "Unnamed".data c.data))

/-- A column access df[c]: a KeyError (modelled as Except.error c) when the
column is absent. -/
def requireCol (cols : List String) (c : String) : Except String Unit :=
  if c ∈ cols then Except.ok () else Except.error c

/-- load_and_clean at the dataframe level: the sequence of column reads the
function performs (lines 13, 16, 28, 29, 30 in order); a missing column
surfaces as a KeyError, and nothing else can fail -- individual cells only
ever degrade to defaults. -/
def load_and_clean_df (df : DFrame) : Except String (List Row) := do
  let cols := dropUnnamed df.cols
  requireCol cols "Date"
  requireCol cols "Amount"
  requireCol cols "Category"
  requireCol cols "Received / paid"
  requireCol cols "If shopped, where"
  Except.ok (load_and_clean df.rows)

/-- The five columns load_and_clean reads. -/
def requiredCols : List String :=
  ["Date", "Amount", "Category", "Received / paid", "If shopped, where"]

/-! ## The aggregator (lines 46-111) -/

/-- Contiguous-substring test on character lists: `pat` occurs somewhere in
the list. -/
def containsSub (pat : List Char) : List Char → Bool
  | [] => pat.isEmpty
  | c :: rest => List.isPrefixOf pat (c :: rest) || containsSub pat rest

/-- Model of Series.str.contains(pat, case=False, na=False) on one cell:
case-insensitive substring test, false on a non-string. -/
def containsCI (c : CellVal) (pat : String) : Bool :=
  match c with
  | CellVal.str s => containsSub (pat.data.map Char.toLower) (s.data.map Char.toLower)
  | _ => false

/-- Line 48: the rows of the selected month. -/
def month_df (records : List Row) (m : String) : List Row :=
  records.filter (fun r => r.Month == m)

/-- Sum of the Amount_numeric column of a row list. -/
def sumAmount (rows : List Row) : ℚ :=
  (rows.map Row.Amount_numeric).sum

/-- Line 51: total of the month's rows whose direction contains "Paid". -/
def paid_total (records : List Row) (m : String) : ℚ :=
  sumAmount ((month_df records m).filter (fun r => containsCI r.Direction "Paid"))

/-- Line 52: total of the month's rows whose direction contains
"Received". -/
def received_total (records : List Row) (m : String) : ℚ :=
  sumAmount ((month_df records m).filter (fun r => containsCI r.Direction "Received"))

/-- Line 53: net = received - paid. -/
def net (records : List Row) (m : String) : ℚ :=
  received_total records m - paid_total records m

/-- Line 63: groupby("Category") sum of Amount_numeric over the month's
rows, one entry per distinct Category value.  (pandas sorts the group keys;
the claims do not depend on key order, so first-occurrence-free dedup order
is used.) -/
def cat_sum (records : List Row) (m : String) : List (CellVal × ℚ) :=
  (((month_df records m).map Row.Category).dedup).map
    (fun c => (c, sumAmount ((month_df records m).filter (fun r => r.Category == c))))

/-- Line 74: groupby(["Category", "Received / paid"]) sum of
Amount_numeric over the month's rows. -/
def cat_type (records : List Row) (m : String) : List ((CellVal × CellVal) × ℚ) :=
  (((month_df records m).map (fun r => (r.Category, r.Direction))).dedup).map
    (fun k => (k, sumAmount ((month_df records m).filter
      (fun r => (r.Category, r.Direction) == k))))

/-- One row of the detail view (lines 104-106): the projected columns, the
date rendered as text. -/
structure DisplayRow where
  Date : String
  Category : CellVal
  Amount : CellVal
  Direction : CellVal
  Location : CellVal
deriving DecidableEq

/-- Lines 104-106: the detail view of the selected month -- the projection
to [Date, Category, Amount, Received / paid, If shopped, where] with the
Date column cast to str.  The Amount column is the raw text column, not
Amount_numeric. -/
def month_df_display (records : List Row) (m : String) : List DisplayRow :=
  (month_df records m).map
    (fun r => ⟨astypeStr r.Date, r.Category, r.Amount, r.Direction, r.Location⟩)

/-- Specification-side sum: add the amounts of the records satisfying `p`,
each record counted once with indicator weight. -/
def sumIf (records : List Row) (p : Row → Bool) : ℚ :=
  (records.map (fun r => if p r then r.Amount_numeric else 0)).sum

/-! ## Helper lemmas -/

lemma cleanRow_none {r : Row} (hd : toDatetime r.Date = none) : cleanRow r = none := by
  unfold cleanRow
  rw [hd]

lemma cleanRow_of_date {r : Row} {d : Date} (hd : toDatetime r.Date = some d) :
    cleanRow r = some (normRow r d) := by
  unfold cleanRow
  rw [hd]

lemma cleanRow_some_elim {r r' : Row} (h : cleanRow r = some r') :
    ∃ d, toDatetime r.Date = some d ∧ r' = normRow r d := by
  cases hd : toDatetime r.Date with
  | none => rw [cleanRow_none hd] at h; cases h
  | some d => rw [cleanRow_of_date hd] at h; exact ⟨d, rfl, (Option.some.inj h).symm⟩

lemma fillna_fillna (c : CellVal) (v w : String) : fillna (fillna c v) w = fillna c v := by
  cases c <;> rfl

lemma normRow_normRow (r : Row) (d : Date) : normRow (normRow r d) d = normRow r d := by
  simp [normRow, fillna_fillna]

lemma cleanRow_normRow (r : Row) (d : Date) : cleanRow (normRow r d) = some (normRow r d) := by
  have h : toDatetime (normRow r d).Date = some d := rfl
  rw [cleanRow_of_date h, normRow_normRow]

lemma filterMap_eq_self_of_fix {f : Row → Option Row} {l : List Row}
    (h : ∀ a ∈ l, f a = some a) : l.filterMap f = l := by
  induction l with
  | nil => rfl
  | cons a t ih =>
    rw [List.filterMap_cons, h a (List.mem_cons_self a t),
      ih (fun x hx => h x (List.mem_cons_of_mem a hx))]

lemma sumAmount_nil : sumAmount [] = 0 := rfl

lemma sumAmount_cons (a : Row) (t : List Row) :
    sumAmount (a :: t) = a.Amount_numeric + sumAmount t := by
  simp [sumAmount]

lemma sumIf_cons (a : Row) (t : List Row) (p : Row → Bool) :
    sumIf (a :: t) p = (if p a then a.Amount_numeric else 0) + sumIf t p := by
  simp [sumIf]

lemma sumAmount_filter (p : Row → Bool) (l : List Row) :
    sumAmount (l.filter p) = sumIf l p := by
  induction l with
  | nil => rfl
  | cons a t ih =>
    rw [List.filter_cons, sumIf_cons]
    by_cases h : p a
    · rw [if_pos h, if_pos h, sumAmount_cons, ih]
    · rw [if_neg h, if_neg h, ih, zero_add]

lemma sumAmount_filter_not (p : Row → Bool) (l : List Row) :
    sumAmount (l.filter p) + sumAmount (l.filter (fun r => !(p r))) = sumAmount l := by
  induction l with
  | nil => simp [sumAmount]
  | cons a t ih =>
    by_cases h : p a
    · rw [List.filter_cons_of_pos h, List.filter_cons_of_neg (by simp [h]),
        sumAmount_cons, sumAmount_cons, add_assoc, ih]
    · rw [List.filter_cons_of_neg (by simp [h]), List.filter_cons_of_pos (by simp [h]),
        sumAmount_cons, sumAmount_cons, add_left_comm, ih]

lemma sumAmount_groups : ∀ (keys : List CellVal) (l : List Row), keys.Nodup →
    (∀ r ∈ l, r.Category ∈ keys) →
    (keys.map (fun c => sumAmount (l.filter (fun r => r.Category == c)))).sum = sumAmount l := by
  intro keys
  induction keys with
  | nil =>
    intro l _ hcov
    have hl : l = [] := List.eq_nil_iff_forall_not_mem.mpr (fun r hr => by simpa using hcov r hr)
    subst hl
    rfl
  | cons c ks ih =>
    intro l hnd hcov
    rw [List.map_cons, List.sum_cons]
    have hstep : ∀ k ∈ ks, l.filter (fun r => r.Category == k) =
        (l.filter (fun r => !(r.Category == c))).filter (fun r => r.Category == k) := by
      intro k hk
      rw [List.filter_filter]
      apply List.filter_congr
      intro r _
      by_cases hq : r.Category = k
      · have hkc : k ≠ c := fun e => (List.nodup_cons.mp hnd).1 (e ▸ hk)
        simp [hq, hkc]
      · simp [hq]
    rw [List.map_congr_left (fun k hk => congrArg sumAmount (hstep k hk))]
    rw [ih (l.filter (fun r => !(r.Category == c))) (List.nodup_cons.mp hnd).2 ?_]
    · exact sumAmount_filter_not (fun r => r.Category == c) l
    · intro r hr
      have hne : r.Category ≠ c := by simpa using List.of_mem_filter hr
      have hmem := hcov r (List.mem_of_mem_filter hr)
      exact (List.mem_cons.mp hmem).resolve_left hne

lemma strip_removeCHF (l : List Char) :
    stripNonNumeric (removeCHF l) = stripNonNumeric l := by
  induction l using removeCHF.induct with
  | case1 rest ih => exact ih
  | case2 c rest h ih =>
    simp only [stripNonNumeric] at ih ⊢
    simp [removeCHF, List.filter_cons, ih]
  | case3 => rfl

/-! ## Concrete rows used by witnesses and counterexamples -/

/-- A raw CSV row: parsable date, "CHF 100" amount, missing category and
location. -/
def sampleRaw : Row :=
  ⟨CellVal.str "2024-03-15", CellVal.str "CHF 100", CellVal.na,
    CellVal.str "Paid", CellVal.na, 0, ""⟩

/-- The cleaned form of sampleRaw. -/
def sampleClean : Row :=
  ⟨CellVal.dt ⟨2024, 3, 15⟩, CellVal.str "CHF 100", CellVal.str "Uncategorized",
    CellVal.str "Paid", CellVal.str "", 100, "2024-03"⟩

/-- A raw row with a negative amount in direction "Paid". -/
def negRaw : Row :=
  ⟨CellVal.str "2024-01-15", CellVal.str "-50", CellVal.str "Food",
    CellVal.str "Paid", CellVal.str "x", 0, ""⟩

/-- A normalized record with a positive amount in direction "Paid". -/
def paidRow : Row :=
  ⟨CellVal.dt ⟨2024, 1, 15⟩, CellVal.str "100", CellVal.str "Food",
    CellVal.str "Paid", CellVal.str "", 100, "2024-01"⟩

/-- A normalized record of month "2024-02". -/
def febRow : Row :=
  ⟨CellVal.dt ⟨2024, 2, 1⟩, CellVal.str "5", CellVal.str "A",
    CellVal.str "Paid", CellVal.str "", 5, "2024-02"⟩

/-! ## The claims -/

section

attribute [local semireducible] Rat.add Rat.mul Rat.inv Rat.sub Rat.ofScientific

/-- C1: the normalizer drops exactly the rows whose date fails to parse
(output membership is precisely the cleaned kept rows, and a row's survival
is equivalent to its date parsing); every kept row has a valid parsed date,
and empty/missing category, direction and location are replaced by
"Uncategorized", "Unknown" and "" respectively while present values are
kept -- default substitution never drops a row. -/
theorem C1_date_filter_and_field_defaults :
    (∀ r : Row, (cleanRow r).isSome ↔ (toDatetime r.Date).isSome) ∧
    (∀ (rows : List Row) (r' : Row),
      r' ∈ load_and_clean rows ↔ ∃ a ∈ rows, cleanRow a = some r') ∧
    (∀ r r' : Row, cleanRow r = some r' →
      (∃ d, toDatetime r.Date = some d ∧ r'.Date = CellVal.dt d) ∧
      (r.Category = CellVal.na → r'.Category = CellVal.str "Uncategorized") ∧
      (r.Category ≠ CellVal.na → r'.Category = r.Category) ∧
      (r.Direction = CellVal.na → r'.Direction = CellVal.str "Unknown") ∧
      (r.Direction ≠ CellVal.na → r'.Direction = r.Direction) ∧
      (r.Location = CellVal.na → r'.Location = CellVal.str "") ∧
      (r.Location ≠ CellVal.na → r'.Location = r.Location)) := by
  refine ⟨?_, ?_, ?_⟩
  · intro r
    cases hd : toDatetime r.Date with
    | none => rw [cleanRow_none hd]; simp
    | some d => rw [cleanRow_of_date hd]; simp
  · intro rows r'
    exact List.mem_filterMap
  · intro r r' h
    obtain ⟨d, hd, rfl⟩ := cleanRow_some_elim h
    refine ⟨⟨d, hd, rfl⟩, ?_, ?_, ?_, ?_, ?_, ?_⟩
    · intro hna
      show fillna r.Category "Uncategorized" = CellVal.str "Uncategorized"
      rw [hna]
      rfl
    · intro hne
      show fillna r.Category "Uncategorized" = r.Category
      cases hc : r.Category with
      | na => exact absurd hc hne
      | str s => rfl
      | dt d2 => rfl
    · intro hna
      show fillna r.Direction "Unknown" = CellVal.str "Unknown"
      rw [hna]
      rfl
    · intro hne
      show fillna r.Direction "Unknown" = r.Direction
      cases hc : r.Direction with
      | na => exact absurd hc hne
      | str s => rfl
      | dt d2 => rfl
    · intro hna
      show fillna r.Location "" = CellVal.str ""
      rw [hna]
      rfl
    · intro hne
      show fillna r.Location "" = r.Location
      cases hc : r.Location with
      | na => exact absurd hc hne
      | str s => rfl
      | dt d2 => rfl

/-- C2: the normalized amount of every kept row is obtained from the raw
Amount text by deleting the token "CHF" and every character other than a
digit, the decimal point and the minus sign, then parsing the remainder as
a decimal, with 0 substituted when the parse fails (so the amount is always
a well-defined rational, never missing); deleting "CHF" first is subsumed
by the character filter; "CHF 1'234.56" and "1234.56 CHF" both normalize to
1234.56 and "garbage" normalizes to 0. -/
theorem C2_amount_normalization :
    (∀ r r' : Row, cleanRow r = some r' → r'.Amount_numeric = amountNumeric r.Amount) ∧
    (∀ s : String, amountNumeric (CellVal.str s) =
      (parseDecimal (stripNonNumeric s.data)).getD 0) ∧
    amountNumeric (CellVal.str "CHF 1\x27234.56") = 1234.56 ∧
    amountNumeric (CellVal.str "1234.56 CHF") = 1234.56 ∧
    amountNumeric (CellVal.str "garbage") = 0 := by
  refine ⟨?_, ?_, by decide, by decide, by decide⟩
  · intro r r' h
    obtain ⟨d, _, rfl⟩ := cleanRow_some_elim h
    rfl
  · intro s
    unfold amountNumeric astypeStr
    rw [strip_removeCHF]

/-- C7: every record the normalizer emits carries a parsed date `d`, and
its month key is exactly the first 7 characters of the ISO text of `d`
(the YYYY-MM prefix of YYYY-MM-DD). -/
theorem C7_month_is_iso_prefix :
    ∀ r r' : Row, cleanRow r = some r' →
      ∃ d, r'.Date = CellVal.dt d ∧ r'.Month = String.mk ((isoStr d).data.take 7) := by
  intro r r' h
  obtain ⟨d, _, rfl⟩ := cleanRow_some_elim h
  refine ⟨d, rfl, ?_⟩
  show monthKey d = String.mk ((isoStr d).data.take 7)
  have hdata : (isoStr d).data = monthChars d ++ '-' :: pad2 d.day := rfl
  have hlen : (monthChars d).length = 7 := by
    simp [monthChars, yearChars, pad2]
  rw [monthKey, hdata, ← hlen, List.take_left]

/-- Witness for C7 at the concrete raw row sampleRaw, cleaned to
sampleClean with month "2024-03" and date 2024-03-15. -/
theorem C7_month_witness :
    ∃ d, sampleClean.Date = CellVal.dt d ∧
      sampleClean.Month = String.mk ((isoStr d).data.take 7) :=
  C7_month_is_iso_prefix sampleRaw sampleClean (by decide)

/-- C9: the normalizer is idempotent -- applying load_and_clean to its own
output returns that output unchanged, every field included. -/
theorem C9_normalizer_idempotent :
    ∀ rows : List Row, load_and_clean (load_and_clean rows) = load_and_clean rows := by
  intro rows
  apply filterMap_eq_self_of_fix
  intro a ha
  obtain ⟨b, _, hb⟩ := List.mem_filterMap.mp ha
  obtain ⟨d, _, rfl⟩ := cleanRow_some_elim hb
  exact cleanRow_normRow b d

/-- C10: the normalizer never modifies the Amount text column -- every kept
row keeps its raw Amount cell verbatim (the parsed value lives in the
separate Amount_numeric field), and the detail view projects exactly that
original Amount column. -/
theorem C10_amount_text_preserved :
    (∀ r r' : Row, cleanRow r = some r' → r'.Amount = r.Amount) ∧
    (∀ (records : List Row) (m : String),
      (month_df_display records m).map DisplayRow.Amount =
        (month_df records m).map Row.Amount) := by
  constructor
  · intro r r' h
    obtain ⟨d, _, rfl⟩ := cleanRow_some_elim h
    rfl
  · intro records m
    simp only [month_df_display, List.map_map]
    rfl

/-- C3: the overview totals are indicator sums over the whole record set --
paidTotal adds the amounts of the selected month's records whose direction
contains "Paid" case-insensitively, receivedTotal does the same for
"Received", and net is their difference; each record is weighted by the two
indicators independently (one matching both substrings enters both sums,
one matching neither enters neither), and the month's record set itself is
the plain month filter, untouched by direction. -/
theorem C3_overview_totals :
    ∀ (records : List Row) (m : String),
      paid_total records m =
        sumIf records (fun r => r.Month == m && containsCI r.Direction "Paid") ∧
      received_total records m =
        sumIf records (fun r => r.Month == m && containsCI r.Direction "Received") ∧
      net records m = received_total records m - paid_total records m ∧
      month_df records m = records.filter (fun r => r.Month == m) := by
  intro records m
  refine ⟨?_, ?_, rfl, rfl⟩
  · unfold paid_total month_df
    rw [List.filter_filter]
    rw [List.filter_congr (fun r _ => Bool.and_comm (containsCI r.Direction "Paid") (r.Month == m))]
    exact sumAmount_filter _ records
  · unfold received_total month_df
    rw [List.filter_filter]
    rw [List.filter_congr
      (fun r _ => Bool.and_comm (containsCI r.Direction "Received") (r.Month == m))]
    exact sumAmount_filter _ records

/-- C5 counterexample: a parsed record whose direction is "Paid" and whose
amount text is "-50" makes paidTotal negative, refuting the claim that
paidTotal is always non-negative. -/
theorem C5_negative_total_counterexample :
    paid_total (load_and_clean [negRaw]) "2024-01" = -50 ∧
    ¬(0 ≤ paid_total (load_and_clean [negRaw]) "2024-01") := by
  constructor
  · decide
  · decide

/-- C5 amended: paidTotal and receivedTotal are non-negative provided every
record's amount is non-negative (the amount parser keeps the minus sign, so
a negative raw amount can make either total negative). -/
theorem C5_totals_nonneg_amended :
    ∀ (records : List Row) (m : String), (∀ r ∈ records, 0 ≤ r.Amount_numeric) →
      0 ≤ paid_total records m ∧ 0 ≤ received_total records m := by
  intro records m h
  constructor
  · apply List.sum_nonneg
    intro x hx
    obtain ⟨r, hr, rfl⟩ := List.mem_map.mp hx
    exact h r (List.mem_of_mem_filter (List.mem_of_mem_filter hr))
  · apply List.sum_nonneg
    intro x hx
    obtain ⟨r, hr, rfl⟩ := List.mem_map.mp hx
    exact h r (List.mem_of_mem_filter (List.mem_of_mem_filter hr))

/-- Witness for the amended C5 at the one-record set [paidRow], whose
amount 100 is non-negative. -/
theorem C5_totals_nonneg_witness :
    0 ≤ paid_total [paidRow] "2024-01" ∧ 0 ≤ received_total [paidRow] "2024-01" :=
  C5_totals_nonneg_amended [paidRow] "2024-01" (by decide)

/-- C6: the category-breakdown group sums of a month add up to the sum of
all amounts of that month's records, regardless of direction. -/
theorem C6_category_breakdown_total :
    ∀ (records : List Row) (m : String),
      ((cat_sum records m).map Prod.snd).sum = sumAmount (month_df records m) := by
  intro records m
  unfold cat_sum
  rw [List.map_map]
  exact sumAmount_groups _ _ (List.nodup_dedup _)
    (fun r hr => List.mem_dedup.mpr (List.mem_map_of_mem _ hr))

/-- C8: for a selected month key that occurs in no record (the empty record
set included) nothing fails -- the month's record set, both totals, the
net, both breakdowns and the detail view are all zero or empty. -/
theorem C8_missing_month_empty :
    ∀ (records : List Row) (m : String), m ∉ records.map Row.Month →
      month_df records m = [] ∧ paid_total records m = 0 ∧
      received_total records m = 0 ∧ net records m = 0 ∧
      cat_sum records m = [] ∧ cat_type records m = [] ∧
      month_df_display records m = [] := by
  intro records m hm
  have h0 : month_df records m = [] := by
    rw [month_df, List.filter_eq_nil_iff]
    intro r hr
    simp only [beq_iff_eq]
    intro e
    exact hm (e ▸ List.mem_map_of_mem Row.Month hr)
  refine ⟨h0, ?_, ?_, ?_, ?_, ?_, ?_⟩
  · rw [paid_total, h0]; rfl
  · rw [received_total, h0]; rfl
  · rw [net, received_total, paid_total, h0]; rfl
  · rw [cat_sum, h0]; rfl
  · rw [cat_type, h0]; rfl
  · rw [month_df_display, h0]; rfl

/-- Witness for C8 at the one-record set [febRow] (its only month is
"2024-02") and the absent month key "2024-01". -/
theorem C8_missing_month_witness :
    month_df [febRow] "2024-01" = [] ∧ paid_total [febRow] "2024-01" = 0 ∧
    received_total [febRow] "2024-01" = 0 ∧ net [febRow] "2024-01" = 0 ∧
    cat_sum [febRow] "2024-01" = [] ∧ cat_type [febRow] "2024-01" = [] ∧
    month_df_display [febRow] "2024-01" = [] :=
  C8_missing_month_empty [febRow] "2024-01" (by decide)

/-- C4 counterexample: a dataframe whose schema has the Date and Amount
columns but no Category column makes load_and_clean fail with a KeyError on
"Category" (line 28 reads df["Category"] unconditionally), refuting the
claim that Date and Amount alone suffice for normalization to succeed. -/
theorem C4_schema_counterexample :
    "Date" ∈ (DFrame.mk ["Date", "Amount"] []).cols ∧
    "Amount" ∈ (DFrame.mk ["Date", "Amount"] []).cols ∧
    load_and_clean_df (DFrame.mk ["Date", "Amount"] []) = Except.error "Category" :=
  ⟨by simp, by simp, rfl⟩

/-- C4 amended: normalization succeeds exactly when all five referenced
columns (Date, Amount, Category, Received / paid, If shopped, where)
survive the Unnamed-column drop; when they do the result is the cleaned
row set, so malformed individual cells never cause a failure -- but the
absence of any of the five columns, the three the spec calls optional
included, is a hard failure. -/
theorem C4_schema_failure_amended :
    ∀ df : DFrame,
      (load_and_clean_df df = Except.ok (load_and_clean df.rows) ↔
        ∀ c ∈ requiredCols, c ∈ dropUnnamed df.cols) ∧
      ((∃ out, load_and_clean_df df = Except.ok out) ↔
        ∀ c ∈ requiredCols, c ∈ dropUnnamed df.cols) := by
  intro df
  by_cases h1 : "Date" ∈ dropUnnamed df.cols <;>
  by_cases h2 : "Amount" ∈ dropUnnamed df.cols <;>
  by_cases h3 : "Category" ∈ dropUnnamed df.cols <;>
  by_cases h4 : "Received / paid" ∈ dropUnnamed df.cols <;>
  by_cases h5 : "If shopped, where" ∈ dropUnnamed df.cols <;>
  simp [load_and_clean_df, requireCol, requiredCols, h1, h2, h3, h4, h5, Bind.bind, Except.bind]

end

end FinViz
